import Mathlib

/-!
Verification development for the EDU-SENSE learning-gap analysis engine
(`gap_detector.py`, `recommendation_engine.py`).

Shallow embedding conventions:
* DataFrame rows become a `List Attempt`; the presence of the optional
  `Topic` / `Time_Taken` / `Student_ID` columns is tracked by Boolean flags on
  `DataFrame`.  Reading an absent column (pandas `KeyError`) is modelled by
  `Except String`.
* Python floats are modelled by `ℚ`.  pandas `.std()` is the sample standard
  deviation (ddof = 1), which is `NaN` for fewer than two values; we model the
  variance as `Option ℚ` (`none` for `NaN`) and every comparison against a
  `NaN` standard deviation as `false`, matching IEEE comparison semantics.
* A comparison `t < m - std` with `std = Real.sqrt v`, `v ≥ 0`, is equivalent
  to `0 < m - t ∧ v < (m - t)^2`; we use that square form so every definition
  stays executable over `ℚ`.
* Python dicts become insertion-ordered association lists
  (`List (String × Gap)`); assignment to an existing key updates in place,
  assignment to a fresh key appends.
* Human-readable description strings drop the embedded percent formatting of
  floats (no claim depends on it); the surrounding text is kept.
-/

/-- One attempt row of the normalized schema
(`Student_ID, Topic, Correct, Time_Taken`). -/
structure Attempt where
  studentId : String
  topic : String
  correct : Bool
  timeTaken : ℚ
  deriving Repr, DecidableEq

/-- A student's attempt frame.  The flags record which optional columns are
present; reading a column whose flag is `false` is a `KeyError`. -/
structure DataFrame where
  rows : List Attempt
  hasStudentId : Bool
  hasTopic : Bool
  hasTimeTaken : Bool
  deriving Repr, DecidableEq

/-- `df['Time_Taken']`: raises `KeyError` when the column is absent. -/
def DataFrame.timeTakenCol (df : DataFrame) : Except String (List ℚ) :=
  if df.hasTimeTaken then .ok (df.rows.map (·.timeTaken))
  else .error "KeyError: Time_Taken"

/-- pandas `.mean()` (callers below only use it on non-empty data; the value
on `[]` is immaterial to them). -/
def qmean (xs : List ℚ) : ℚ :=
  if xs.length = 0 then 0 else xs.sum / (xs.length : ℚ)

/-- pandas `.std()` squared: the sample variance with `ddof = 1`,
`none` (= `NaN`) for fewer than two values. -/
def sampleVar? (xs : List ℚ) : Option ℚ :=
  if xs.length < 2 then none
  else some (((xs.map (fun x => (x - qmean xs) ^ 2)).sum) / ((xs.length - 1 : ℕ) : ℚ))

/-- `t < m - std` where `std = sqrt v` (`none` = `NaN`, comparison false).
For `v ≥ 0`: `sqrt v < c ↔ 0 < c ∧ v < c^2`. -/
def ltMinusStd (t m : ℚ) (v? : Option ℚ) : Bool :=
  match v? with
  | none => false
  | some v => decide (0 < m - t ∧ v < (m - t) ^ 2)

/-- `t > m + std` where `std = sqrt v` (`none` = `NaN`, comparison false). -/
def gtPlusStd (t m : ℚ) (v? : Option ℚ) : Bool :=
  match v? with
  | none => false
  | some v => decide (0 < t - m ∧ v < (t - m) ^ 2)

/-- Python `str.lower()` (ASCII case mapping, as all topic strings here are
ASCII). -/
def pyLower (s : String) : String :=
  ⟨s.data.map Char.toLower⟩

/-- Python `str.upper()` (ASCII). -/
def pyUpper (s : String) : String :=
  ⟨s.data.map Char.toUpper⟩

/-- Python `str.capitalize()`: first character uppercased, the rest
lowercased (ASCII). -/
def pyCapitalize (s : String) : String :=
  match s.data with
  | [] => ""
  | c :: rest => ⟨c.toUpper :: rest.map Char.toLower⟩

/-- `str.replace(pat, rep)` on character lists: non-overlapping left-to-right
replacement.  The fuel argument (instantiated with the list length) only makes
the recursion structural; it never runs out. -/
def pyReplaceAux (pat rep : List Char) : Nat → List Char → List Char
  | _, [] => []
  | 0, s => s
  | fuel + 1, c :: rest =>
    if pat.isPrefixOf (c :: rest) ∧ pat ≠ [] then
      rep ++ pyReplaceAux pat rep fuel ((c :: rest).drop pat.length)
    else c :: pyReplaceAux pat rep fuel rest

/-- Python `str.replace(pat, rep)` (for the non-empty patterns used here). -/
def pyReplace (s pat rep : String) : String :=
  ⟨pyReplaceAux pat.data rep.data s.data.length s.data⟩

/-- Python `str.split(sep)` for a one-character separator. -/
def splitOnChar (sep : Char) : List Char → List (List Char)
  | [] => [[]]
  | c :: rest =>
    match splitOnChar sep rest with
    | [] => [[]]
    | w :: ws => if c = sep then [] :: w :: ws else (c :: w) :: ws

/-- `sep.join(parts)`. -/
def joinWith (sep : String) : List String → String
  | [] => ""
  | [s] => s
  | s :: rest => s ++ sep ++ joinWith sep rest

/-- `LearningGapDetector._severity_from_accuracy`. -/
def severity_from_accuracy (accuracy : ℚ) : String :=
  if accuracy < 2/5 then "high"
  else if accuracy < 7/10 then "medium"
  else "low"

/-- Difficulty breakdown returned by `_analyze_mistake_difficulty`.
`total_mistakes` is `none` on the two early-return branches (the source dict
omits the key there). -/
structure DifficultyBreakdown where
  easy : Nat
  moderate : Nat
  hard : Nat
  total_mistakes : Option Nat
  most_frequent : String
  deriving Repr, DecidableEq

/-- The classification applied to each wrong attempt inside the
`_analyze_mistake_difficulty` loop (`if / elif / else` on relative time). -/
def classifyDifficulty (t m : ℚ) (v? : Option ℚ) : String :=
  if ltMinusStd t m v? then "easy"
  else if gtPlusStd t m v? then "hard"
  else "moderate"

/-- Python `max(difficulty_counts, key=difficulty_counts.get)` over the
insertion-ordered dict `{easy, moderate, hard}`: the first key attaining the
maximum. -/
def mostFrequentLabel (e mo h : Nat) : String :=
  if e ≥ mo ∧ e ≥ h then "easy"
  else if mo ≥ h then "moderate"
  else "hard"

/-- `LearningGapDetector._analyze_mistake_difficulty`.  `hasTime` is
`'Time_Taken' in topic_data.columns`. -/
def analyze_mistake_difficulty (hasTime : Bool) (topicData : List Attempt) :
    DifficultyBreakdown :=
  if !hasTime then ⟨0, 0, 0, none, "unknown"⟩
  else
    let times := topicData.map (·.timeTaken)
    let m := qmean times
    let v? := sampleVar? times
    let wrong := topicData.filter (fun r => !r.correct)
    if wrong.length = 0 then ⟨0, 0, 0, none, "none"⟩
    else
      let e := wrong.countP (fun r => ltMinusStd r.timeTaken m v?)
      let h := wrong.countP (fun r => !ltMinusStd r.timeTaken m v? && gtPlusStd r.timeTaken m v?)
      let mo := wrong.countP (fun r => !ltMinusStd r.timeTaken m v? && !gtPlusStd r.timeTaken m v?)
      ⟨e, mo, h, some wrong.length, mostFrequentLabel e mo h⟩

/-- `LearningGapDetector._classify_gap_type`.  `hasTime` is
`'Time_Taken' in topic_data.columns`; the `topic_data is None` guard has no
counterpart here since a list argument is always present.  `v'` is the square
of the source's `std_time` after its `if std_time == 0: std_time = 1` guard. -/
def classify_gap_type (hasTime : Bool) (topicData : List Attempt) : String :=
  if topicData.length < 3 then "Unknown"
  else
    let wrong := topicData.filter (fun r => !r.correct)
    if wrong.length < 1 then "Theoretical"
    else if !hasTime then "Unknown"
    else
      let times := topicData.map (·.timeTaken)
      let m := qmean times
      let v := (sampleVar? times).getD 0
      let v' := if v = 0 then 1 else v
      let easyAll := topicData.filter (fun r => ltMinusStd r.timeTaken m (some v'))
      let hardAll := topicData.filter (fun r => gtPlusStd r.timeTaken m (some v'))
      let easyAcc : ℚ :=
        if easyAll.length > 0 then (easyAll.countP (·.correct) : ℚ) / (easyAll.length : ℚ) else 0
      let hardAcc : ℚ :=
        if hardAll.length > 0 then (hardAll.countP (·.correct) : ℚ) / (hardAll.length : ℚ) else 0
      let progression := easyAcc - hardAcc
      if easyAll.length > 1 ∧ hardAll.length > 1 ∧
          easyAcc > 1/2 ∧ hardAcc < 1/2 ∧ progression > 1/5 then "Theoretical"
      else if easyAll.length > 1 ∧ hardAll.length > 1 ∧ |easyAcc - hardAcc| < 1/5 then "Conceptual"
      else
        let highTimeWrong := (wrong.filter (fun r => gtPlusStd r.timeTaken m (some v'))).length
        let lowTimeWrong := (wrong.filter (fun r => ltMinusStd r.timeTaken m (some v'))).length
        let highRatio : ℚ := (highTimeWrong : ℚ) / (wrong.length : ℚ)
        let lowRatio : ℚ := (lowTimeWrong : ℚ) / (wrong.length : ℚ)
        if highRatio > 1/2 ∧ lowRatio < 1/5 then "Conceptual"
        else if lowRatio > 2/5 ∧ highRatio < 3/10 then "Theoretical"
        else if (topicData.countP (·.correct) : ℚ) / (topicData.length : ℚ) < 7/20 then
          "Conceptual"
        else "Theoretical"

/-- One gap finding.  The three detectors populate different key sets of the
source dict; fields absent from a given finding are `none`. -/
structure Gap where
  severity : String
  confidence : Option ℚ := none
  hesitation_severity : Option ℚ := none
  affected_questions : Nat := 0
  description : String := ""
  difficulty_mistakes : Option DifficultyBreakdown := none
  gap_type : Option String := none
  trend : Option String := none
  expected_impact : Option ℚ := none
  deriving Repr, DecidableEq

/-- Python dict assignment `gaps[k] = v`: update in place if the key exists,
append otherwise. -/
def insertGap (gaps : List (String × Gap)) (kv : String × Gap) : List (String × Gap) :=
  if gaps.any (fun p => p.1 = kv.1) then
    gaps.map (fun p => if p.1 = kv.1 then kv else p)
  else gaps ++ [kv]

/-- `df['Topic'].unique()`: distinct values in order of first appearance. -/
def uniqueTopics (rows : List Attempt) : List String :=
  rows.foldl (fun acc r => if acc.contains r.topic then acc else acc ++ [r.topic]) []

/-- The key `f'concept_gap_{topic.lower().replace(" ", "_")}'`. -/
def conceptKey (topic : String) : String :=
  "concept_gap_" ++ pyReplace (pyLower topic) " " "_"

/-- `student_df[student_df['Topic'] == topic]`: the rows of one topic group. -/
def topicGroup (df : DataFrame) (topic : String) : List Attempt :=
  df.rows.filter (fun r => r.topic = topic)

/-- `(topic_data['Correct'] == 1).sum() / topic_attempts`. -/
def topicAccuracy (df : DataFrame) (topic : String) : ℚ :=
  ((topicGroup df topic).countP (·.correct) : ℚ) / ((topicGroup df topic).length : ℚ)

/-- The body of the per-topic loop of `_detect_concept_gaps`: the finding (with
its key) emitted for one topic, if any.  `min_attempts_threshold = 3`. -/
def concept_gap_for_topic (df : DataFrame) (topic : String) : Option (String × Gap) :=
  if (topicGroup df topic).length < 3 then none
  else if topicAccuracy df topic < 3/5 then
    some (conceptKey topic,
      { severity := severity_from_accuracy (topicAccuracy df topic)
        confidence := some (1 - topicAccuracy df topic)
        affected_questions := (topicGroup df topic).length
        description := "Struggling with " ++ topic ++ ": accuracy"
        difficulty_mistakes := some (analyze_mistake_difficulty df.hasTimeTaken (topicGroup df topic))
        gap_type := some (classify_gap_type df.hasTimeTaken (topicGroup df topic)) })
  else none

/-- `LearningGapDetector._detect_concept_gaps`. -/
def detect_concept_gaps (df : DataFrame) : List (String × Gap) :=
  if !df.hasTopic then []
  else
    (uniqueTopics df.rows).foldl
      (fun gaps t =>
        match concept_gap_for_topic df t with
        | some kv => insertGap gaps kv
        | none => gaps)
      []

/-- `LearningGapDetector._detect_confidence_gaps` (reads `Time_Taken`
unguarded, hence `Except`). -/
def detect_confidence_gaps (df : DataFrame) : Except String (List (String × Gap)) := do
  let times ← df.timeTakenCol
  let avgTime := qmean times
  let highTime := df.rows.filter (fun r => r.timeTaken > avgTime * (3/2))
  if highTime.length > 0 then
    let highTimeWrong := highTime.countP (fun r => !r.correct)
    let errorRate : ℚ := (highTimeWrong : ℚ) / (highTime.length : ℚ)
    if errorRate > 1/2 then
      pure [("confidence_gap",
        { severity := if errorRate < 7/10 then "medium" else "high"
          hesitation_severity := some errorRate
          affected_questions := highTime.length
          description := "Hesitates on slow attempts but still gets them wrong" })]
    else pure []
  else pure []

/-- `LearningGapDetector._detect_speed_gaps` (reads `Time_Taken` unguarded). -/
def detect_speed_gaps (df : DataFrame) : Except String (List (String × Gap)) := do
  let times ← df.timeTakenCol
  let avgTime := qmean times
  let fastAttempts := df.rows.filter (fun r => r.timeTaken < avgTime * (1/2))
  if fastAttempts.length > 2 then
    let fastWrong := fastAttempts.countP (fun r => !r.correct)
    let fastRatio : ℚ := (fastWrong : ℚ) / (fastAttempts.length : ℚ)
    if fastRatio > 2/5 then
      pure [("speed_gap",
        { severity := "medium"
          confidence := some fastRatio
          affected_questions := fastAttempts.length
          description := "Answers too quickly without careful consideration" })]
    else pure []
  else pure []

/-- `{**a, **b}`: right operand's entries assigned into the left. -/
def mergeDicts (a b : List (String × Gap)) : List (String × Gap) :=
  b.foldl insertGap a

/-- The consistency bonus of `_calculate_overall_score`: `0.05` when
`time_std < time_mean * 0.5`, else `0`; `0` as well when the `Time_Taken`
column is absent (that branch is guarded in the source).  The comparison is
rendered in square form (`std < mean/2 ↔ 0 < mean ∧ 4·var < mean²` for a
defined std; false on a `NaN` std). -/
def consistency_bonus (df : DataFrame) : ℚ :=
  if df.hasTimeTaken then
    match sampleVar? (df.rows.map (·.timeTaken)) with
    | none => 0
    | some v =>
      if 0 < qmean (df.rows.map (·.timeTaken)) ∧
          4 * v < qmean (df.rows.map (·.timeTaken)) ^ 2 then 1/20
      else 0
  else 0

/-- `LearningGapDetector._calculate_overall_score`. -/
def calculate_overall_score (accuracy : ℚ) (numGaps : Nat) (df : DataFrame) : ℚ :=
  let gapPenalty : ℚ := (numGaps : ℚ) * (1/10)
  max 0 (min 1 (accuracy - gapPenalty + consistency_bonus df))

/-- `StudentAnalysis`: the result dict of `analyze_student`. -/
structure StudentAnalysis where
  total_attempts : Nat
  correct_answers : Nat
  accuracy : ℚ
  avg_time : ℚ
  gaps : List (String × Gap)
  overall_score : ℚ
  student_id : String
  deriving Repr, DecidableEq

/-- `LearningGapDetector._empty_analysis`. -/
def empty_analysis : StudentAnalysis :=
  ⟨0, 0, 0, 0, [], 0, "Unknown"⟩

/-- `LearningGapDetector.analyze_student`.  A `KeyError` (absent `Time_Taken`
column on a non-empty frame, first hit at the `avg_time` computation) is an
`Except.error`. -/
def analyze_student (df : DataFrame) : Except String StudentAnalysis :=
  if df.rows.length = 0 then .ok empty_analysis
  else do
    let totalAttempts := df.rows.length
    let correctAnswers := df.rows.countP (·.correct)
    let accuracy : ℚ := (correctAnswers : ℚ) / (totalAttempts : ℚ)
    let avgTime := qmean (← df.timeTakenCol)
    let conceptGaps := detect_concept_gaps df
    let confidenceGaps ← detect_confidence_gaps df
    let speedGaps ← detect_speed_gaps df
    let allGaps := mergeDicts (mergeDicts conceptGaps confidenceGaps) speedGaps
    let overallScore := calculate_overall_score accuracy allGaps.length df
    pure
      { total_attempts := totalAttempts
        correct_answers := correctAnswers
        accuracy := accuracy
        avg_time := avgTime
        gaps := allGaps
        overall_score := overallScore
        student_id :=
          if df.hasStudentId then ((df.rows.head?).map (·.studentId)).getD "Unknown"
          else "Unknown" }

/-!
Recommendation engine (`recommendation_engine.py`).  The resource-link
assembly (`get_resources_for_topic` and the three library link fields) is the
external lookup collaborator excluded from the core; the `resources` mapping
and the `class_level` argument that only feeds it are not modelled.  The
unused `estimated_time` local of the source (assigned, then shadowed by
`duration` in every branch) is kept in the library entries for fidelity.
-/

/-- One entry of `RecommendationEngine._build_intervention_library`
(link fields omitted, see module comment). -/
structure LibraryEntry where
  practice_problems : Nat
  estimated_time : String
  key_concepts : List String
  deriving Repr, DecidableEq

/-- `RecommendationEngine._build_intervention_library`. -/
def intervention_library : List (String × LibraryEntry) :=
  [ ("arithmetic", ⟨20, "30 minutes", ["Addition", "Subtraction", "Multiplication", "Division"]⟩),
    ("fractions", ⟨15, "45 minutes", ["Numerator", "Denominator", "Simplification", "Comparison", "Operations"]⟩),
    ("algebra", ⟨12, "60 minutes", ["Variables", "Equations", "Solving", "Substitution", "Expressions"]⟩),
    ("geometry", ⟨10, "50 minutes", ["Shapes", "Area", "Perimeter", "Angles", "Theorems"]⟩),
    ("data analysis", ⟨8, "55 minutes", ["Mean", "Median", "Mode", "Graphs", "Probability"]⟩),
    ("physics", ⟨10, "60 minutes", ["Kinematics", "Forces", "Energy", "Momentum"]⟩),
    ("chemistry", ⟨10, "60 minutes", ["Atoms", "Molecules", "Stoichiometry", "Reactions"]⟩) ]

/-- A recommendation dict (resource links omitted, see module comment). -/
structure Recommendation where
  title : String
  description : String
  priority : String
  practice_type : String
  target_topics : List String
  duration : String
  expected_impact : ℚ
  steps : List String
  deriving Repr, DecidableEq

/-- Python `str.title()` restricted to space-separated words (the only word
boundaries occurring in the lowercased topic strings used here). -/
def titleCaseWords (s : String) : String :=
  joinWith " " ((splitOnChar ' ' s.data).map (fun w => pyCapitalize ⟨w⟩))

/-- `RecommendationEngine._recommend_concept_review`.
Wording of description strings keeps the source text minus float percent
formatting and apostrophes; the practice-level selection (the combination
table) is verbatim — in particular the third branch of the source really
compares `severity` (not `trend`) with the string `improving`, and is
preserved exactly as written. -/
def recommend_concept_review (gapName : String) (g : Gap) : Recommendation :=
  let topicRaw := pyLower (pyReplace gapName "concept_gap_" "")
  let topicDisplay := titleCaseWords (pyReplace topicRaw "_" " ")
  let lib? := intervention_library.lookup topicRaw
  let practiceProblems := (lib?.map (·.practice_problems)).getD 10
  let keyConcepts := joinWith ", " ((lib?.map (·.key_concepts)).getD ["core concepts"])
  let trend := g.trend.getD "stable"
  let severity := g.severity
  let descPre :=
    if trend = "declining" then "Urgent: understanding is deteriorating. "
    else if trend = "improving" then "Student is showing progress, but still has a gap. "
    else "Consistent difficulty. "
  let actionSuffix :=
    if trend = "declining" then "Focus on foundational concepts."
    else if trend = "improving" then "Reinforce learning with varied problems."
    else "Address specific misconceptions."
  let descriptionText :=
    descPre ++ "Struggling with " ++ topicDisplay ++ " (confidence). " ++ actionSuffix
  let selected : String × String × Nat :=
    if severity = "high" ∧ trend = "declining" then
      ("Foundational Review + Intensive Practice", "1-2 weeks, 45-60 min daily",
        max practiceProblems 20)
    else if severity = "medium" ∧ trend = "declining" then
      ("Targeted Review + Extra Practice", "1 week, 30-45 min daily",
        max practiceProblems 15)
    else if severity = "improving" ∧ severity ≠ "low" then
      ("Reinforcement + Challenge Problems", "3-5 days, 20-30 min daily",
        min practiceProblems 10)
    else
      ("Structured Review + Practice", "2-3 days, 30-45 min daily", practiceProblems)
  let pp := selected.2.2
  { title := "Personalized " ++ topicDisplay ++ " Intervention (" ++ pyCapitalize trend ++ ")"
    description := descriptionText
    priority := pyUpper severity
    practice_type := selected.1
    target_topics := [topicDisplay]
    duration := selected.2.1
    expected_impact := g.expected_impact.getD (1/4)
    steps :=
      [ "1. Revisit key concepts: " ++ keyConcepts,
        "2. Work through " ++ toString (pp / 2) ++ "- " ++ toString (pp / 2 + 5)
          ++ " guided example problems",
        "3. Practice " ++ toString pp ++ " varied problems on " ++ topicDisplay,
        "4. Utilize the Learning Resources below for deeper understanding and additional practice.",
        "5. Take a follow-up assessment to check understanding",
        "6. Seek teacher support for persistent difficulties." ] }

/-- `RecommendationEngine._recommend_confidence_building`. -/
def recommend_confidence_building (g : Gap) : Recommendation :=
  { title := "Confidence & Clarity Building"
    description := g.description
    priority := pyUpper g.severity
    practice_type := "Guided Problem-Solving"
    target_topics := ["All covered topics"]
    duration := "1-2 weeks, 20 min daily"
    expected_impact := 1/5
    steps :=
      [ "1. Start with easier problems to build momentum",
        "2. Work through step-by-step solutions",
        "3. Write down reasoning before answering",
        "4. Review mistakes carefully",
        "5. Gradually increase difficulty" ] }

/-- `RecommendationEngine._recommend_deliberate_practice`. -/
def recommend_deliberate_practice (g : Gap) : Recommendation :=
  { title := "Deliberate, Focused Practice"
    description := g.description
    priority := "MEDIUM"
    practice_type := "Slow & Thoughtful Practice"
    target_topics := ["Problem-solving strategy"]
    duration := "1 week, 25 min daily"
    expected_impact := 3/20
    steps :=
      [ "1. Set a timer for 3-5 minutes per problem",
        "2. Read the question carefully twice",
        "3. Plan your approach before answering",
        "4. Work through each step deliberately",
        "5. Double-check your answer" ] }

/-- `RecommendationEngine._get_maintenance_recommendation`. -/
def maintenance_recommendation : Recommendation :=
  { title := "Continued Practice & Advancement"
    description := "Student is performing well; continue with current pace"
    priority := "LOW"
    practice_type := "Regular Practice + Challenge"
    target_topics := ["All topics"]
    duration := "Ongoing"
    expected_impact := 1/10
    steps :=
      [ "1. Continue regular daily practice",
        "2. Try progressively harder problems",
        "3. Explore different problem types",
        "4. Help other students" ] }

/-- `RecommendationEngine._create_recommendation`: dispatch on
`gap_name.split('_')[0]`; unrecognized kinds yield `None`.  The `accuracy`
argument is passed by the caller and unused, as in the source. -/
def create_recommendation (gapName : String) (g : Gap) (_accuracy : ℚ) :
    Option Recommendation :=
  let gapType : String := ⟨((splitOnChar '_' gapName.data).headD [])⟩
  if gapType = "concept" then some (recommend_concept_review gapName g)
  else if gapType = "confidence" then some (recommend_confidence_building g)
  else if gapType = "speed" then some (recommend_deliberate_practice g)
  else none

/-- The rank map `{'high': 3, 'medium': 2, 'low': 1}.get(severity, 0)`. -/
def severityRank (s : String) : Nat :=
  if s = "high" then 3 else if s = "medium" then 2 else if s = "low" then 1 else 0

/-- Rank of one `(key, finding)` entry. -/
def gapRank (p : String × Gap) : Nat := severityRank p.2.severity

/-- Stable descending insertion: `x` goes before the first element of rank
at most `gapRank x`.  Elements already in the list came earlier in the
original order, so on equal ranks `x` — inserted while folding from the
right — stays after none of its earlier peers. -/
def insertDesc (x : String × Gap) : List (String × Gap) → List (String × Gap)
  | [] => [x]
  | y :: ys => if gapRank y ≤ gapRank x then x :: y :: ys else y :: insertDesc x ys

/-- Python `sorted(gaps.items(), key=rank, reverse=True)`: a stable sort,
descending on `gapRank`. -/
def sortGapsDesc : List (String × Gap) → List (String × Gap)
  | [] => []
  | x :: xs => insertDesc x (sortGapsDesc xs)

/-- `RecommendationEngine.generate_recommendations`. -/
def generate_recommendations (analysis : StudentAnalysis) : List Recommendation :=
  let sortedGaps := sortGapsDesc analysis.gaps
  let recs := sortedGaps.filterMap (fun p => create_recommendation p.1 p.2 analysis.accuracy)
  let withFallback := if recs = [] then [maintenance_recommendation] else recs
  withFallback.take 5

/-!
Concrete inputs used by witnesses and counterexamples, and derived helper
notions used in theorem statements.
-/

/-- Row constructor shorthand for examples. -/
def mkAttempt (c : Bool) (t : ℚ) (top : String) : Attempt :=
  ⟨"S1", top, c, t⟩

/-- The spec scenario: topic `Algebra`, `correct=[1,0,0,1,0]`,
`time_taken=[30,90,85,35,88]` (topic accuracy `0.4`). -/
def dfAlgebra : DataFrame :=
  ⟨[mkAttempt true 30 "Algebra", mkAttempt false 90 "Algebra", mkAttempt false 85 "Algebra",
    mkAttempt true 35 "Algebra", mkAttempt false 88 "Algebra"], true, true, true⟩

/-- Two topics, `Algebra` and `ALGEBRA`, that normalize to the same
`concept_gap_algebra` key; both qualify for a finding. -/
def dfCollide : DataFrame :=
  ⟨[mkAttempt false 30 "Algebra", mkAttempt false 40 "Algebra", mkAttempt false 50 "Algebra",
    mkAttempt false 30 "ALGEBRA", mkAttempt false 40 "ALGEBRA", mkAttempt false 50 "ALGEBRA"],
   true, true, true⟩

/-- A non-empty frame whose `Time_Taken` column is absent. -/
def dfNoTime : DataFrame :=
  ⟨[mkAttempt true 30 "Algebra"], true, true, false⟩

/-- A topic group of three attempts, all correct. -/
def rowsAllCorrect : List Attempt :=
  [mkAttempt true 30 "Algebra", mkAttempt true 31 "Algebra", mkAttempt true 32 "Algebra"]

/-- The findings the concept detector emits, one per qualifying topic, before
dict assignment can collapse key collisions. -/
def conceptFindings (df : DataFrame) : List (String × Gap) :=
  (uniqueTopics df.rows).filterMap (fun t => concept_gap_for_topic df t)

/-- The analysis `analyze_student` computes for `dfAlgebra`:
accuracy `2/5`, one concept finding, consistency bonus granted,
overall score `2/5 - 1/10 + 1/20 = 7/20`. -/
def analysisAlgebra : StudentAnalysis :=
  { total_attempts := 5
    correct_answers := 2
    accuracy := 2/5
    avg_time := 328/5
    gaps := [("concept_gap_algebra",
      { severity := "medium", confidence := some (3/5), hesitation_severity := none,
        affected_questions := 5, description := "Struggling with Algebra: accuracy",
        difficulty_mistakes := some ⟨0, 3, 0, some 3, "moderate"⟩,
        gap_type := some "Theoretical", trend := none, expected_impact := none })]
    overall_score := 7/20
    student_id := "S1" }

/-!  Helper lemmas about dict insertion, merging and the stable sort. -/

lemma mem_insertGap {gaps : List (String × Gap)} {kv p : String × Gap}
    (h : p ∈ insertGap gaps kv) : p ∈ gaps ∨ p = kv := by
  unfold insertGap at h
  split at h
  · obtain ⟨q, hq, hpq⟩ := List.mem_map.mp h
    rcases eq_or_ne q.1 kv.1 with hk | hk
    · right; rw [if_pos hk] at hpq; exact hpq.symm
    · left; rw [if_neg hk] at hpq; rwa [← hpq]
  · rcases List.mem_append.mp h with h' | h'
    · exact Or.inl h'
    · exact Or.inr (by simpa using h')

lemma insertGap_of_fresh (a : List (String × Gap)) (kv : String × Gap)
    (h : ∀ p ∈ a, p.1 ≠ kv.1) : insertGap a kv = a ++ [kv] := by
  unfold insertGap
  rw [if_neg]
  simp only [List.any_eq_true, decide_eq_true_eq, not_exists, not_and]
  intro p hp
  exact h p hp

lemma foldl_insert_eq_filterMap (f : String → Option (String × Gap)) :
    ∀ (l : List String) (acc : List (String × Gap)),
      ((l.filterMap f).map Prod.fst).Nodup →
      (∀ p ∈ acc, ∀ q ∈ l.filterMap f, p.1 ≠ q.1) →
      l.foldl (fun gaps t =>
          match f t with
          | some kv => insertGap gaps kv
          | none => gaps) acc
        = acc ++ l.filterMap f := by
  intro l
  induction l with
  | nil => intro acc _ _; simp
  | cons t ts ih =>
    intro acc hn hdisj
    cases hft : f t with
    | none =>
      simp only [List.foldl_cons, hft]
      rw [List.filterMap_cons_none hft] at hn hdisj ⊢
      exact ih acc hn hdisj
    | some kv =>
      simp only [List.foldl_cons, hft]
      rw [List.filterMap_cons_some hft] at hn hdisj ⊢
      have hfresh : ∀ p ∈ acc, p.1 ≠ kv.1 := fun p hp => hdisj p hp kv (by simp)
      rw [insertGap_of_fresh acc kv hfresh]
      have hn' : ((ts.filterMap f).map Prod.fst).Nodup := by
        simpa using hn.of_cons
      have hdisj' : ∀ p ∈ acc ++ [kv], ∀ q ∈ ts.filterMap f, p.1 ≠ q.1 := by
        intro p hp q hq
        rcases List.mem_append.mp hp with hp | hp
        · exact hdisj p hp q (by simp [hq])
        · have hpkv : p = kv := by simpa using hp
          intro hpq
          rw [hpkv] at hpq
          have hmem : kv.1 ∈ (ts.filterMap f).map Prod.fst :=
            List.mem_map.mpr ⟨q, hq, hpq.symm⟩
          simp only [List.map_cons, List.nodup_cons] at hn
          exact hn.1 hmem
      rw [ih (acc ++ [kv]) hn' hdisj', List.append_assoc]
      rfl

lemma mergeDicts_of_disjoint :
    ∀ (b a : List (String × Gap)), (b.map Prod.fst).Nodup →
      (∀ p ∈ a, ∀ q ∈ b, p.1 ≠ q.1) → mergeDicts a b = a ++ b := by
  intro b
  induction b with
  | nil => intro a _ _; simp [mergeDicts]
  | cons kv t ih =>
    intro a hb hdisj
    unfold mergeDicts at *
    simp only [List.foldl_cons]
    rw [insertGap_of_fresh a kv (fun p hp => hdisj p hp kv (by simp))]
    have hb' : (t.map Prod.fst).Nodup := by simpa using hb.of_cons
    have hdisj' : ∀ p ∈ a ++ [kv], ∀ q ∈ t, p.1 ≠ q.1 := by
      intro p hp q hq
      rcases List.mem_append.mp hp with hp | hp
      · exact hdisj p hp q (by simp [hq])
      · have hpkv : p = kv := by simpa using hp
        intro hpq
        rw [hpkv] at hpq
        have hmem : kv.1 ∈ t.map Prod.fst := List.mem_map.mpr ⟨q, hq, hpq.symm⟩
        simp only [List.map_cons, List.nodup_cons] at hb
        exact hb.1 hmem
    rw [ih (a ++ [kv]) hb' hdisj', List.append_assoc]
    rfl

lemma conceptKey_ne_confidence (t : String) : conceptKey t ≠ "confidence_gap" := by
  unfold conceptKey
  intro h
  have hd := congrArg String.data h
  rw [String.data_append] at hd
  simp at hd

lemma conceptKey_ne_speed (t : String) : conceptKey t ≠ "speed_gap" := by
  unfold conceptKey
  intro h
  have hd := congrArg String.data h
  rw [String.data_append] at hd
  simp at hd

lemma countP_three_partition (l : List Attempt) (p q : Attempt → Bool) :
    l.countP p + l.countP (fun x => !p x && !q x) + l.countP (fun x => !p x && q x)
      = l.length := by
  induction l with
  | nil => simp
  | cons a t ih =>
    by_cases hp : p a <;> by_cases hq : q a <;>
      simp [List.countP_cons, hp, hq] <;> omega

lemma detect_confidence_gaps_ok (df : DataFrame) (h : df.hasTimeTaken = true) :
    ∃ l, detect_confidence_gaps df = .ok l := by
  unfold detect_confidence_gaps
  simp only [DataFrame.timeTakenCol, h, if_true]
  simp only [Bind.bind, Except.bind]
  split_ifs <;> exact ⟨_, rfl⟩

lemma detect_speed_gaps_ok (df : DataFrame) (h : df.hasTimeTaken = true) :
    ∃ l, detect_speed_gaps df = .ok l := by
  unfold detect_speed_gaps
  simp only [DataFrame.timeTakenCol, h, if_true]
  simp only [Bind.bind, Except.bind]
  split_ifs <;> exact ⟨_, rfl⟩

lemma analyze_student_ok (df : DataFrame) (hne : df.rows ≠ []) (ht : df.hasTimeTaken = true)
    {cl sl : List (String × Gap)}
    (hc : detect_confidence_gaps df = .ok cl) (hs : detect_speed_gaps df = .ok sl) :
    analyze_student df = .ok
      { total_attempts := df.rows.length
        correct_answers := df.rows.countP (·.correct)
        accuracy := (df.rows.countP (·.correct) : ℚ) / (df.rows.length : ℚ)
        avg_time := qmean (df.rows.map (·.timeTaken))
        gaps := mergeDicts (mergeDicts (detect_concept_gaps df) cl) sl
        overall_score :=
          calculate_overall_score ((df.rows.countP (·.correct) : ℚ) / (df.rows.length : ℚ))
            (mergeDicts (mergeDicts (detect_concept_gaps df) cl) sl).length df
        student_id :=
          if df.hasStudentId then ((df.rows.head?).map (·.studentId)).getD "Unknown"
          else "Unknown" } := by
  unfold analyze_student
  rw [if_neg (by simpa using hne)]
  simp only [DataFrame.timeTakenCol, ht, if_true, hc, hs]
  simp only [Bind.bind, Except.bind, pure, Except.pure]

lemma gapRank_le_three (p : String × Gap) : gapRank p ≤ 3 := by
  unfold gapRank severityRank
  split_ifs <;> omega

lemma insertDesc_append_of_gt (x : String × Gap) :
    ∀ (A B : List (String × Gap)), (∀ y ∈ A, gapRank x < gapRank y) →
      insertDesc x (A ++ B) = A ++ insertDesc x B := by
  intro A
  induction A with
  | nil => intro B _; simp
  | cons y ys ih =>
    intro B hA
    have hy : gapRank x < gapRank y := hA y (by simp)
    simp only [List.cons_append, insertDesc, List.append_eq]
    rw [if_neg (by omega)]
    rw [ih B (fun z hz => hA z (by simp [hz]))]

lemma insertDesc_front (x : String × Gap) (B : List (String × Gap))
    (h : ∀ y ∈ B, gapRank y ≤ gapRank x) : insertDesc x B = x :: B := by
  cases B with
  | nil => rfl
  | cons y ys =>
    simp only [insertDesc]
    rw [if_pos (h y (by simp))]

lemma sortGapsDesc_buckets (l : List (String × Gap)) :
    sortGapsDesc l =
      l.filter (fun p => gapRank p = 3) ++ l.filter (fun p => gapRank p = 2)
        ++ l.filter (fun p => gapRank p = 1) ++ l.filter (fun p => gapRank p = 0) := by
  induction l with
  | nil => simp [sortGapsDesc]
  | cons x t ih =>
    have hmem : ∀ k : Nat, ∀ y ∈ t.filter (fun p => gapRank p = k), gapRank y = k := by
      intro k y hy; simpa using (List.mem_filter.mp hy).2
    have hb := gapRank_le_three x
    simp only [sortGapsDesc, ih, List.append_assoc]
    interval_cases h : gapRank x
    · rw [List.filter_cons_of_neg (by simp [h]), List.filter_cons_of_neg (by simp [h]),
        List.filter_cons_of_neg (by simp [h]), List.filter_cons_of_pos (by simp [h])]
      rw [insertDesc_append_of_gt x _ _ (fun y hy => by rw [h, hmem 3 y hy]; omega)]
      rw [insertDesc_append_of_gt x _ _ (fun y hy => by rw [h, hmem 2 y hy]; omega)]
      rw [insertDesc_append_of_gt x _ _ (fun y hy => by rw [h, hmem 1 y hy]; omega)]
      rw [insertDesc_front x _ (fun y hy => by rw [h, hmem 0 y hy])]
    · rw [List.filter_cons_of_neg (by simp [h]), List.filter_cons_of_neg (by simp [h]),
        List.filter_cons_of_pos (by simp [h]), List.filter_cons_of_neg (by simp [h])]
      rw [insertDesc_append_of_gt x _ _ (fun y hy => by rw [h, hmem 3 y hy]; omega)]
      rw [insertDesc_append_of_gt x _ _ (fun y hy => by rw [h, hmem 2 y hy]; omega)]
      rw [insertDesc_front x _ (fun y hy => by
        rcases List.mem_append.mp hy with hy' | hy'
        · rw [h, hmem 1 y hy']
        · rw [h, hmem 0 y hy']; omega)]
      simp
    · rw [List.filter_cons_of_neg (by simp [h]), List.filter_cons_of_pos (by simp [h]),
        List.filter_cons_of_neg (by simp [h]), List.filter_cons_of_neg (by simp [h])]
      rw [insertDesc_append_of_gt x _ _ (fun y hy => by rw [h, hmem 3 y hy]; omega)]
      rw [insertDesc_front x _ (fun y hy => by
        rcases List.mem_append.mp hy with hy' | hy'
        · rw [h, hmem 2 y hy']
        · rcases List.mem_append.mp hy' with hy'' | hy''
          · rw [h, hmem 1 y hy'']; omega
          · rw [h, hmem 0 y hy'']; omega)]
      simp
    · rw [List.filter_cons_of_pos (by simp [h]), List.filter_cons_of_neg (by simp [h]),
        List.filter_cons_of_neg (by simp [h]), List.filter_cons_of_neg (by simp [h])]
      rw [insertDesc_front x _ (fun y hy => by
        rcases List.mem_append.mp hy with hy' | hy'
        · rw [h, hmem 3 y hy']
        · rcases List.mem_append.mp hy' with hy'' | hy''
          · rw [h, hmem 2 y hy'']; omega
          · rcases List.mem_append.mp hy'' with h3 | h3
            · rw [h, hmem 1 y h3]; omega
            · rw [h, hmem 0 y h3]; omega)]
      simp

lemma concept_gap_severity_of_emitted (df : DataFrame) (t key : String) (g : Gap)
    (h : concept_gap_for_topic df t = some (key, g)) :
    g.severity = "high" ∨ g.severity = "medium" := by
  unfold concept_gap_for_topic at h
  split at h
  · exact absurd h (by simp)
  · split at h
    · rename_i hacc
      simp only [Option.some.injEq, Prod.mk.injEq] at h
      obtain ⟨-, hgap⟩ := h
      rw [← hgap]
      unfold severity_from_accuracy
      split_ifs with h1 h2
      · left; rfl
      · right; rfl
      · exfalso; linarith
    · exact absurd h (by simp)

lemma mem_foldl_insert (f : String → Option (String × Gap)) (P : String × Gap → Prop)
    (hP : ∀ t kv, f t = some kv → P kv) :
    ∀ (l : List String) (acc : List (String × Gap)), (∀ p ∈ acc, P p) →
      ∀ p ∈ l.foldl (fun gaps t =>
          match f t with
          | some kv => insertGap gaps kv
          | none => gaps) acc, P p := by
  intro l
  induction l with
  | nil => intro acc hacc p hp; exact hacc p hp
  | cons t ts ih =>
    intro acc hacc p hp
    simp only [List.foldl_cons] at hp
    cases hft : f t with
    | none => simp only [hft] at hp; exact ih acc hacc p hp
    | some kv =>
      simp only [hft] at hp
      refine ih (insertGap acc kv) ?_ p hp
      intro q hq
      rcases mem_insertGap hq with hq' | hq'
      · exact hacc q hq'
      · rw [hq']; exact hP t kv hft

/-- C6: for the empty AttemptSet, `analyze_student` never raises and returns a
StudentAnalysis with `total_attempts = 0`, correct count `0`, `accuracy = 0`,
`avg_time = 0`, an empty gaps mapping and `overall_score = 0`. -/
theorem analyze_student_empty_input (df : DataFrame) (h : df.rows = []) :
    analyze_student df = .ok
      { total_attempts := 0, correct_answers := 0, accuracy := 0, avg_time := 0,
        gaps := [], overall_score := 0, student_id := "Unknown" } := by
  unfold analyze_student
  rw [if_pos (by simp [h])]
  rfl

/-- Witness for C6 at the concrete empty frame. -/
theorem analyze_student_empty_input_witness :
    analyze_student ⟨[], true, true, true⟩ = .ok
      { total_attempts := 0, correct_answers := 0, accuracy := 0, avg_time := 0,
        gaps := [], overall_score := 0, student_id := "Unknown" } :=
  analyze_student_empty_input ⟨[], true, true, true⟩ rfl

/-- C3 (amended): on a non-empty frame whose `Time_Taken` column is absent,
`analyze_student` raises a `KeyError` at the `avg_time` computation instead of
degrading; the analysis is aborted.  (Only `_analyze_mistake_difficulty`,
`_classify_gap_type` and `_calculate_overall_score` guard the column.) -/
theorem analyze_student_missing_time_errors (df : DataFrame) (hne : df.rows ≠ [])
    (ht : df.hasTimeTaken = false) :
    analyze_student df = .error "KeyError: Time_Taken" := by
  unfold analyze_student
  rw [if_neg (by simpa using hne)]
  simp only [DataFrame.timeTakenCol, ht, Bool.false_eq_true, if_false, Bind.bind, Except.bind]

attribute [local semireducible] Rat.mul Rat.inv Rat.add Rat.sub in
/-- Witness for C3 (amended) at a concrete one-row frame. -/
theorem analyze_student_missing_time_errors_witness :
    dfNoTime.rows ≠ [] ∧ analyze_student dfNoTime = .error "KeyError: Time_Taken" :=
  ⟨by decide, analyze_student_missing_time_errors dfNoTime (by decide) rfl⟩

/-- Counterexample to C3 as stated: this non-empty frame without `Time_Taken`
does not yield a StudentAnalysis; `analyze_student` raises the `KeyError`. -/
theorem analyze_student_missing_time_counterexample :
    dfNoTime.rows ≠ [] ∧ dfNoTime.hasTimeTaken = false ∧
      analyze_student dfNoTime = .error "KeyError: Time_Taken" := by
  exact ⟨by decide, rfl, rfl⟩

/-- C1: for every topic group with at least 3 attempts, no ConceptGap finding
is emitted when `topic_accuracy >= 0.6`; an emitted finding has severity
`high` exactly when `topic_accuracy < 0.4` (strict, so accuracy exactly `0.4`
yields `medium`), `medium` exactly when `0.4 <= topic_accuracy < 0.7`, and
confidence `1 - topic_accuracy`. -/
theorem concept_gap_threshold_and_severity (df : DataFrame) (topic : String)
    (h3 : 3 ≤ (topicGroup df topic).length) :
    ((3:ℚ)/5 ≤ topicAccuracy df topic → concept_gap_for_topic df topic = none) ∧
    (∀ key g, concept_gap_for_topic df topic = some (key, g) →
      (g.severity = "high" ↔ topicAccuracy df topic < 2/5) ∧
      (g.severity = "medium" ↔
        ((2:ℚ)/5 ≤ topicAccuracy df topic ∧ topicAccuracy df topic < 7/10)) ∧
      g.confidence = some (1 - topicAccuracy df topic)) := by
  constructor
  · intro hacc
    unfold concept_gap_for_topic
    rw [if_neg (by omega), if_neg (by linarith)]
  · intro key g hg
    unfold concept_gap_for_topic at hg
    rw [if_neg (by omega)] at hg
    by_cases hlt : topicAccuracy df topic < 3/5
    · rw [if_pos hlt] at hg
      simp only [Option.some.injEq, Prod.mk.injEq] at hg
      obtain ⟨-, hgap⟩ := hg
      rw [← hgap]
      unfold severity_from_accuracy
      split_ifs with h1 h2
      · dsimp only
        refine ⟨⟨fun _ => h1, fun _ => rfl⟩, ⟨fun h => absurd h (by decide), ?_⟩, rfl⟩
        intro hr
        exfalso; linarith [hr.1]
      · dsimp only
        refine ⟨⟨fun h => absurd h (by decide), fun h => absurd h h1⟩,
          ⟨fun _ => ⟨by linarith, h2⟩, fun _ => rfl⟩, rfl⟩
      · exfalso; linarith
    · rw [if_neg hlt] at hg
      exact absurd hg (by simp)

attribute [local semireducible] Rat.mul Rat.inv Rat.add Rat.sub in
/-- Witness for C1 at the spec scenario `dfAlgebra` (topic accuracy exactly
`0.4`): the emitted finding has severity `medium`. -/
theorem concept_gap_threshold_and_severity_witness :
    3 ≤ (topicGroup dfAlgebra "Algebra").length ∧
    Gap.severity
      { severity := "medium", confidence := some (3/5), hesitation_severity := none,
        affected_questions := 5, description := "Struggling with Algebra: accuracy",
        difficulty_mistakes := some ⟨0, 3, 0, some 3, "moderate"⟩,
        gap_type := some "Theoretical", trend := none, expected_impact := none }
      = "medium" :=
  ⟨by decide,
    ((concept_gap_threshold_and_severity dfAlgebra "Algebra" (by decide)).2
      "concept_gap_algebra" _ (by decide)).2.1.mpr (by decide)⟩

/-- C10: every finding produced by the concept detector has severity `high`
or `medium`, never `low` — emission requires accuracy below `0.6`, while
`low` is assigned only at accuracy `0.7` and above. -/
theorem detect_concept_gaps_severity_never_low (df : DataFrame) (key : String) (g : Gap)
    (hmem : (key, g) ∈ detect_concept_gaps df) :
    g.severity = "high" ∨ g.severity = "medium" := by
  unfold detect_concept_gaps at hmem
  rcases hht : df.hasTopic with _ | _
  · rw [hht] at hmem; simp at hmem
  · rw [hht] at hmem
    simp only [Bool.not_true, Bool.false_eq_true, if_false] at hmem
    exact mem_foldl_insert (concept_gap_for_topic df)
      (fun p => p.2.severity = "high" ∨ p.2.severity = "medium")
      (fun t kv hkv => by
        obtain ⟨k2, g2⟩ := kv
        exact concept_gap_severity_of_emitted df t k2 g2 hkv)
      (uniqueTopics df.rows) [] (by simp) (key, g) hmem

attribute [local semireducible] Rat.mul Rat.inv Rat.add Rat.sub in
/-- Witness for C10 on `dfAlgebra`: its concrete concept finding is `medium`. -/
theorem detect_concept_gaps_severity_never_low_witness :
    (("concept_gap_algebra",
      ({ severity := "medium", confidence := some (3/5), hesitation_severity := none,
         affected_questions := 5, description := "Struggling with Algebra: accuracy",
         difficulty_mistakes := some ⟨0, 3, 0, some 3, "moderate"⟩,
         gap_type := some "Theoretical", trend := none, expected_impact := none } : Gap))
      ∈ detect_concept_gaps dfAlgebra) ∧
    (({ severity := "medium", confidence := some (3/5), hesitation_severity := none,
        affected_questions := 5, description := "Struggling with Algebra: accuracy",
        difficulty_mistakes := some ⟨0, 3, 0, some 3, "moderate"⟩,
        gap_type := some "Theoretical", trend := none, expected_impact := none } : Gap).severity
        = "high" ∨
      ({ severity := "medium", confidence := some (3/5), hesitation_severity := none,
         affected_questions := 5, description := "Struggling with Algebra: accuracy",
         difficulty_mistakes := some ⟨0, 3, 0, some 3, "moderate"⟩,
         gap_type := some "Theoretical", trend := none, expected_impact := none } : Gap).severity
        = "medium") :=
  ⟨by decide, detect_concept_gaps_severity_never_low dfAlgebra "concept_gap_algebra" _ (by decide)⟩

lemma mostFrequentLabel_modal (e mo h : Nat) :
    (mostFrequentLabel e mo h = "easy" ∧ mo ≤ e ∧ h ≤ e) ∨
    (mostFrequentLabel e mo h = "moderate" ∧ e < mo ∧ h ≤ mo) ∨
    (mostFrequentLabel e mo h = "hard" ∧ e < h ∧ mo < h) := by
  unfold mostFrequentLabel
  split_ifs with h1 h2
  · exact Or.inl ⟨rfl, h1.1, h1.2⟩
  · exact Or.inr (Or.inl ⟨rfl, by omega, h2⟩)
  · exact Or.inr (Or.inr ⟨rfl, by omega, by omega⟩)

/-- C4 (amended): in `_classify_gap_type` the missing-`time_taken` Unknown
rule sits after the zero-wrong-attempts rule, not before it: a group of at
least 3 attempts with no `time_taken` column classifies `Unknown` only when it
has at least one wrong attempt; with zero wrong attempts it classifies
`Theoretical`. -/
theorem classify_gap_type_no_time_column (l : List Attempt) (h3 : 3 ≤ l.length) :
    ((l.filter (fun r => !r.correct)).length = 0 → classify_gap_type false l = "Theoretical") ∧
    (1 ≤ (l.filter (fun r => !r.correct)).length → classify_gap_type false l = "Unknown") := by
  constructor
  · intro hw
    unfold classify_gap_type
    rw [if_neg (by omega), if_pos (by omega)]
  · intro hw
    unfold classify_gap_type
    rw [if_neg (by omega), if_neg (by omega), if_pos (by decide)]

/-- Counterexample to C4 as stated: a 3-attempt group without `time_taken`
and zero wrong attempts classifies `Theoretical`, not `Unknown`. -/
theorem classify_gap_type_no_time_counterexample :
    3 ≤ rowsAllCorrect.length ∧ classify_gap_type false rowsAllCorrect = "Theoretical" ∧
      classify_gap_type false rowsAllCorrect ≠ "Unknown" := by decide

/-- Witness for C4 (amended) at two concrete groups. -/
theorem classify_gap_type_no_time_column_witness :
    3 ≤ rowsAllCorrect.length ∧ classify_gap_type false rowsAllCorrect = "Theoretical" ∧
      classify_gap_type false dfAlgebra.rows = "Unknown" :=
  ⟨by decide, (classify_gap_type_no_time_column rowsAllCorrect (by decide)).1 (by decide),
    (classify_gap_type_no_time_column dfAlgebra.rows (by decide)).2 (by decide)⟩

/-- C9 (amended): with a `time_taken` column, the easy/moderate/hard counts
always sum to the number of wrong attempts in the group; whenever there is at
least one wrong attempt, `most_frequent` is the modal category with ties
resolved by the precedence easy, moderate, hard.  (With zero wrong attempts
the label is the sentinel `none`, not a category.) -/
theorem mistake_difficulty_sum_and_modal (l : List Attempt) (b : DifficultyBreakdown)
    (hb : analyze_mistake_difficulty true l = b) :
    b.easy + b.moderate + b.hard = (l.filter (fun r => !r.correct)).length ∧
    (1 ≤ (l.filter (fun r => !r.correct)).length →
      (b.most_frequent = "easy" ∧ b.moderate ≤ b.easy ∧ b.hard ≤ b.easy) ∨
      (b.most_frequent = "moderate" ∧ b.easy < b.moderate ∧ b.hard ≤ b.moderate) ∨
      (b.most_frequent = "hard" ∧ b.easy < b.hard ∧ b.moderate < b.hard)) := by
  unfold analyze_mistake_difficulty at hb
  simp only [Bool.not_true, Bool.false_eq_true, if_false] at hb
  by_cases hw : (l.filter (fun r => !r.correct)).length = 0
  · rw [if_pos hw] at hb
    rw [← hb]
    exact ⟨by simpa using hw.symm, fun hcon => absurd hw (by omega)⟩
  · rw [if_neg hw] at hb
    rw [← hb]
    dsimp only
    constructor
    · exact countP_three_partition (l.filter (fun r => !r.correct)) _ _
    · intro _
      exact mostFrequentLabel_modal _ _ _

/-- Witness for C9 (amended) on the `dfAlgebra` group. -/
theorem mistake_difficulty_sum_and_modal_witness :
    (analyze_mistake_difficulty true dfAlgebra.rows).easy
      + (analyze_mistake_difficulty true dfAlgebra.rows).moderate
      + (analyze_mistake_difficulty true dfAlgebra.rows).hard
      = (dfAlgebra.rows.filter (fun r => !r.correct)).length :=
  (mistake_difficulty_sum_and_modal dfAlgebra.rows _ rfl).1

/-- Counterexample to C9 as stated: with a time column and zero wrong
attempts, `most_frequent` is `none` — not the modal category (which the tie
precedence would make `easy`). -/
theorem mistake_difficulty_modal_counterexample :
    (analyze_mistake_difficulty true rowsAllCorrect).most_frequent = "none" ∧
    (analyze_mistake_difficulty true rowsAllCorrect).most_frequent ≠ "easy" ∧
    (analyze_mistake_difficulty true rowsAllCorrect).most_frequent ≠ "moderate" ∧
    (analyze_mistake_difficulty true rowsAllCorrect).most_frequent ≠ "hard" := by decide

/-- C2: for every non-empty AttemptSet (with its `Time_Taken` column), the
returned `overall_score` is `clamp(accuracy - 0.1·number_of_findings +
consistency_bonus, 0, 1)`, with the bonus `0.05` exactly when
`stddev(time_taken) < 0.5·mean(time_taken)` (see `consistency_bonus`), and
both `accuracy` and `overall_score` lie in `[0, 1]`. -/
theorem overall_score_formula_and_bounds (df : DataFrame) (hne : df.rows ≠ [])
    (ht : df.hasTimeTaken = true) :
    ∀ a, analyze_student df = .ok a →
      a.accuracy = (df.rows.countP (·.correct) : ℚ) / (df.rows.length : ℚ) ∧
      a.overall_score =
        max 0 (min 1 (a.accuracy - (a.gaps.length : ℚ) * (1/10) + consistency_bonus df)) ∧
      0 ≤ a.accuracy ∧ a.accuracy ≤ 1 ∧ 0 ≤ a.overall_score ∧ a.overall_score ≤ 1 := by
  obtain ⟨cl, hc⟩ := detect_confidence_gaps_ok df ht
  obtain ⟨sl, hs⟩ := detect_speed_gaps_ok df ht
  intro a ha
  rw [analyze_student_ok df hne ht hc hs] at ha
  injection ha with ha'
  rw [← ha']
  dsimp only
  have hlen : (0:ℚ) < (df.rows.length : ℚ) := by
    have : df.rows.length ≠ 0 := by simpa using hne
    exact_mod_cast Nat.pos_of_ne_zero this
  have hacc0 : (0:ℚ) ≤ (df.rows.countP (·.correct) : ℚ) / (df.rows.length : ℚ) := by positivity
  have hacc1 : (df.rows.countP (·.correct) : ℚ) / (df.rows.length : ℚ) ≤ 1 := by
    rw [div_le_one hlen]
    exact_mod_cast List.countP_le_length _
  refine ⟨rfl, rfl, hacc0, hacc1, ?_, ?_⟩
  · exact le_max_left 0 _
  · unfold calculate_overall_score
    exact max_le (by norm_num) (min_le_left 1 _)

attribute [local semireducible] Rat.mul Rat.inv Rat.add Rat.sub in
/-- Witness for C2 on `dfAlgebra` (score `7/20 = 2/5 - 1/10 + 1/20`). -/
theorem overall_score_formula_and_bounds_witness :
    dfAlgebra.rows ≠ [] ∧
    (0:ℚ) ≤ analysisAlgebra.overall_score ∧ analysisAlgebra.overall_score ≤ 1 :=
  ⟨by decide,
    (overall_score_formula_and_bounds dfAlgebra (by decide) rfl analysisAlgebra rfl).2.2.2.2.1,
    (overall_score_formula_and_bounds dfAlgebra (by decide) rfl analysisAlgebra rfl).2.2.2.2.2⟩

lemma detect_confidence_gaps_shape (df : DataFrame) (h : df.hasTimeTaken = true) :
    detect_confidence_gaps df = .ok [] ∨
      ∃ g, detect_confidence_gaps df = .ok [("confidence_gap", g)] := by
  unfold detect_confidence_gaps
  simp only [DataFrame.timeTakenCol, h, if_true, Bind.bind, Except.bind]
  split_ifs <;> first
    | (left; rfl)
    | (right; exact ⟨_, rfl⟩)

lemma detect_speed_gaps_shape (df : DataFrame) (h : df.hasTimeTaken = true) :
    detect_speed_gaps df = .ok [] ∨
      ∃ g, detect_speed_gaps df = .ok [("speed_gap", g)] := by
  unfold detect_speed_gaps
  simp only [DataFrame.timeTakenCol, h, if_true, Bind.bind, Except.bind]
  split_ifs <;> first
    | (left; rfl)
    | (right; exact ⟨_, rfl⟩)

lemma conceptFindings_key_shape (df : DataFrame) (p : String × Gap)
    (hp : p ∈ conceptFindings df) : ∃ t, p.1 = conceptKey t := by
  unfold conceptFindings at hp
  obtain ⟨t, _, hsome⟩ := List.mem_filterMap.mp hp
  refine ⟨t, ?_⟩
  unfold concept_gap_for_topic at hsome
  split at hsome
  · exact absurd hsome (by simp)
  · split at hsome
    · simp only [Option.some.injEq] at hsome
      rw [← hsome]
    · exact absurd hsome (by simp)

lemma detect_concept_gaps_eq_findings (df : DataFrame) (htop : df.hasTopic = true)
    (hkeys : ((conceptFindings df).map Prod.fst).Nodup) :
    detect_concept_gaps df = conceptFindings df := by
  unfold detect_concept_gaps
  rw [htop]
  simp only [Bool.not_true, Bool.false_eq_true, if_false]
  have h := foldl_insert_eq_filterMap (fun t => concept_gap_for_topic df t)
    (uniqueTopics df.rows) [] hkeys (by simp)
  simpa using h

/-- C5 (amended): merging loses no finding provided the per-topic findings
carry pairwise distinct normalized keys; cross-detector collisions are
impossible since concept keys start with `concept_gap_` and the other
detectors use `confidence_gap` / `speed_gap`.  (Distinct topics normalizing
to the same key — e.g. `Algebra` vs `ALGEBRA` — do collide; see the
counterexample.) -/
theorem merged_gaps_lose_nothing (df : DataFrame) (hne : df.rows ≠ [])
    (htop : df.hasTopic = true) (ht : df.hasTimeTaken = true)
    (hkeys : ((conceptFindings df).map Prod.fst).Nodup) :
    ∀ a cl sl, analyze_student df = .ok a →
      detect_confidence_gaps df = .ok cl → detect_speed_gaps df = .ok sl →
      a.gaps = conceptFindings df ++ cl ++ sl ∧
      a.gaps.length = (conceptFindings df).length + cl.length + sl.length := by
  intro a cl sl ha hc hs
  rw [analyze_student_ok df hne ht hc hs] at ha
  injection ha with ha'
  rw [← ha']
  dsimp only
  rw [detect_concept_gaps_eq_findings df htop hkeys]
  have hclkeys : ∀ q ∈ cl, q.1 = "confidence_gap" := by
    rcases detect_confidence_gaps_shape df ht with hcs | ⟨g, hcs⟩ <;>
        rw [hc] at hcs <;> injection hcs with hcs' <;> rw [hcs']
    · simp
    · intro q hq
      have hq' : q = ("confidence_gap", g) := by simpa using hq
      rw [hq']
  have hslkeys : ∀ q ∈ sl, q.1 = "speed_gap" := by
    rcases detect_speed_gaps_shape df ht with hss | ⟨g, hss⟩ <;>
        rw [hs] at hss <;> injection hss with hss' <;> rw [hss']
    · simp
    · intro q hq
      have hq' : q = ("speed_gap", g) := by simpa using hq
      rw [hq']
  have hclnodup : (cl.map Prod.fst).Nodup := by
    rcases detect_confidence_gaps_shape df ht with hcs | ⟨g, hcs⟩ <;>
      rw [hc] at hcs <;> injection hcs with hcs' <;> rw [hcs'] <;> simp
  have hslnodup : (sl.map Prod.fst).Nodup := by
    rcases detect_speed_gaps_shape df ht with hss | ⟨g, hss⟩ <;>
      rw [hs] at hss <;> injection hss with hss' <;> rw [hss'] <;> simp
  have hm1 : mergeDicts (conceptFindings df) cl = conceptFindings df ++ cl := by
    refine mergeDicts_of_disjoint cl (conceptFindings df) hclnodup ?_
    intro p hp q hq
    obtain ⟨t, hpt⟩ := conceptFindings_key_shape df p hp
    rw [hpt, hclkeys q hq]
    exact conceptKey_ne_confidence t
  have hm2 : mergeDicts (conceptFindings df ++ cl) sl = conceptFindings df ++ cl ++ sl := by
    refine mergeDicts_of_disjoint sl (conceptFindings df ++ cl) hslnodup ?_
    intro p hp q hq
    rw [hslkeys q hq]
    rcases List.mem_append.mp hp with hp' | hp'
    · obtain ⟨t, hpt⟩ := conceptFindings_key_shape df p hp'
      rw [hpt]
      exact conceptKey_ne_speed t
    · rw [hclkeys p hp']
      decide
  rw [hm1, hm2]
  simp only [List.length_append, true_and]

attribute [local semireducible] Rat.mul Rat.inv Rat.add Rat.sub in
/-- Witness for C5 (amended) on `dfAlgebra`: one concept finding, nothing
from the other detectors, merged size `1 + 0 + 0`. -/
theorem merged_gaps_lose_nothing_witness :
    analysisAlgebra.gaps = conceptFindings dfAlgebra ++ [] ++ [] ∧
    analysisAlgebra.gaps.length
      = (conceptFindings dfAlgebra).length + List.length ([] : List (String × Gap))
        + List.length ([] : List (String × Gap)) :=
  merged_gaps_lose_nothing dfAlgebra (by decide) rfl rfl (by decide)
    analysisAlgebra [] [] rfl rfl rfl

attribute [local semireducible] Rat.mul Rat.inv Rat.add Rat.sub in
/-- Counterexample to C5 as stated: `dfCollide` makes the concept detector
emit two findings (topics `Algebra` and `ALGEBRA`), both with the key
`concept_gap_algebra`; the merged mapping retains only one of them, so the
merged size `1` is not the emitted sum `2 + 0 + 0`. -/
theorem merged_gaps_collision_counterexample :
    (conceptFindings dfCollide).length = 2 ∧
    detect_confidence_gaps dfCollide = .ok [] ∧
    detect_speed_gaps dfCollide = .ok [] ∧
    (detect_concept_gaps dfCollide).length = 1 ∧
    (analyze_student dfCollide).toOption.map (fun a => a.gaps.length) = some 1 :=
  ⟨by decide, rfl, rfl, by decide, rfl⟩

/-- C7: `generate_recommendations` returns at most 5 items; with zero findings
it returns exactly the one maintenance recommendation; the findings are
processed in stable descending severity order (`high=3, medium=2, low=1`,
other strings rank 0): the sorted sequence is exactly the rank-3 bucket, then
rank-2, rank-1, rank-0, each in original insertion order. -/
theorem generate_recommendations_spec (analysis : StudentAnalysis) :
    (generate_recommendations analysis).length ≤ 5 ∧
    (analysis.gaps = [] → generate_recommendations analysis = [maintenance_recommendation]) ∧
    sortGapsDesc analysis.gaps =
      analysis.gaps.filter (fun p => gapRank p = 3)
        ++ analysis.gaps.filter (fun p => gapRank p = 2)
        ++ analysis.gaps.filter (fun p => gapRank p = 1)
        ++ analysis.gaps.filter (fun p => gapRank p = 0) := by
  refine ⟨?_, ?_, sortGapsDesc_buckets _⟩
  · unfold generate_recommendations
    exact List.length_take_le 5 _
  · intro h
    unfold generate_recommendations
    rw [h]
    rfl

/-- Witness for C7 at the all-zero analysis (no findings). -/
theorem generate_recommendations_spec_witness :
    generate_recommendations empty_analysis = [maintenance_recommendation] :=
  (generate_recommendations_spec empty_analysis).2.1 rfl

/-- C8: the third branch of the concept-review practice-level table compares
`severity` — never equal to `improving` — with the string `improving`, so an
improving-trend medium-severity finding falls through to the fallback branch
instead of receiving the improving-specific intensity and duration.  The
trend default (`stable` when the finding has no trend attribute) does work,
as the last conjunct shows. -/
theorem concept_review_improving_branch_dead :
    (recommend_concept_review "concept_gap_algebra"
        { severity := "medium", confidence := some (3/5), trend := some "improving" }).practice_type
      = "Structured Review + Practice" ∧
    (recommend_concept_review "concept_gap_algebra"
        { severity := "medium", confidence := some (3/5), trend := some "improving" }).duration
      = "2-3 days, 30-45 min daily" ∧
    (recommend_concept_review "concept_gap_algebra"
        { severity := "medium", confidence := some (3/5), trend := some "improving" }).practice_type
      ≠ "Reinforcement + Challenge Problems" ∧
    (recommend_concept_review "concept_gap_algebra"
        { severity := "high", confidence := some (1/2) }).title
      = "Personalized Algebra Intervention (Stable)" := by
  refine ⟨rfl, rfl, by decide, by decide⟩
